import Mathlib

/-!
Verification development for src/scripts/smtp-test.py (class SMTPTester).

The script runs a fixed ordered list of SMTP probes (bound methods of
SMTPTester), logs one dict per log_result call into self.results, prints a
summary, writes the result list as JSON to /tmp/smtp-test-results.json and
returns whether every result succeeded.

Shallow embedding choices:
- A probe body, as seen by run_all_tests, is its observable behaviour: the
  sequence of log_result calls it performs, followed by either a normal
  return or an uncaught exception (modelled by the string form of the
  exception).  The eight concrete probes of the script are embedded below as
  functions of a network environment that fixes the outcome of each network
  operation they attempt.
- datetime.now().isoformat() is modelled by a clock, a function from the
  number of results logged so far to a timestamp string.
- Side effects (appended results, time.sleep, the single json.dump) are
  recorded in an event trace inside the run state.
- Python exceptions raised by the runner's own bookkeeping (ZeroDivisionError
  in the success-rate f-string when total = 0, an IO error opening or writing
  the report file) make run_all_tests return Except.error.
-/

/-- Width of the possible values of the error argument of log_result: Python
None, a plain string (as in error='Submission port allows mail without
authentication'), or a caught exception object whose str() form is msg.
An exception object is always truthy; a string is truthy iff non-empty. -/
inductive ErrArg
  | noneE
  | strE (s : String)
  | excE (msg : String)
deriving Repr, DecidableEq

/-- Python truthiness of the error argument (the test in
str(error) if error else None). -/
def ErrArg.truthy : ErrArg → Bool
  | .noneE => false
  | .strE s => !(s == "")
  | .excE _ => true

/-- Python str() of the error argument. -/
def ErrArg.pyStr : ErrArg → String
  | .noneE => "None"
  | .strE s => s
  | .excE m => m

/-- The error field stored by log_result: str(error) if error else None. -/
def errField (error : ErrArg) : Option String :=
  if error.truthy then some error.pyStr else none

/-- One entry of self.results, the dict built by log_result. -/
structure ProbeResult where
  test : String
  success : Bool
  timestamp : String
  details : Option String
  error : Option String
deriving Repr, DecidableEq

/-- The arguments of one call to log_result made by a probe body. -/
structure LogCall where
  test_name : String
  success : Bool
  details : Option String
  error : ErrArg
deriving Repr, DecidableEq

/-- How a probe body ends: normal return, or an uncaught exception whose
str() form is the given string (caught at the runner boundary). -/
inductive ProbeOutcome
  | returns
  | raises (msg : String)
deriving Repr, DecidableEq

/-- The observable behaviour of one probe as invoked by run_all_tests:
its name (test.__name__), the log_result calls its body performs, and how
it ends. -/
structure ProbeBehavior where
  name : String
  logs : List LogCall
  outcome : ProbeOutcome
deriving Repr, DecidableEq

/-- Shallow JSON values, for the json.dump of the result list. -/
inductive JVal
  | jnull
  | jbool (b : Bool)
  | jstr (s : String)
  | jarr (xs : List JVal)
  | jobj (fields : List (String × JVal))
deriving Repr

/-- Observable side effects of the run, in order. -/
inductive Event
  | logged (r : ProbeResult)
  | slept (seconds : Nat)
  | wrote (path : String) (content : JVal)
deriving Repr

/-- Mutable state of a run: self.results plus the effect trace. -/
structure RunState where
  results : List ProbeResult
  events : List Event

/-- Empty state at the start of a run (self.results = [] in __init__). -/
def initState : RunState := { results := [], events := [] }

/-- Errors of the runner's own bookkeeping: ZeroDivisionError from
(passed/total)*100 when total = 0, and failure to open or write the report
file. -/
inductive RunError
  | zeroDivision
  | writeFailed
deriving Repr, DecidableEq

/-- Configuration state of SMTPTester (the fields set by __init__; the
results list is modelled separately in RunState). -/
structure SMTPTester where
  smtp_host : String
  mx_port : Nat
  submission_port : Nat
deriving Repr, DecidableEq

/-- SMTPTester() built with the keyword defaults of __init__:
smtp_host='app', mx_port=25, submission_port=587. -/
def testerDefault : SMTPTester :=
  { smtp_host := "app", mx_port := 25, submission_port := 587 }

/-- The keyword parameters accepted by SMTPTester.__init__ (line 16), i.e.
the whole configuration surface of the script.  The inter-probe delay and
the report path occur in the source only as the literal 1 in time.sleep(1)
(line 189) and the literal path in open(...) (line 203). -/
def recognizedOptions : List String :=
  ["smtp_host", "mx_port", "submission_port"]

/-- The hard-coded report path of line 203. -/
def reportPath : String := "/tmp/smtp-test-results.json"

/-- log_result (lines 22-37): build the result dict, with
error = str(error) if error else None and timestamp = datetime.now()
(modelled by the clock at the current result count), and append it to
self.results.  The print calls are not modelled. -/
def log_result (clock : Nat → String) (st : RunState) (test_name : String)
    (success : Bool) (details : Option String) (error : ErrArg) : RunState :=
  let result : ProbeResult :=
    { test := test_name
      success := success
      timestamp := clock st.results.length
      details := details
      error := errField error }
  { results := st.results ++ [result]
    events := st.events ++ [Event.logged result] }

/-- One log_result call described by a LogCall record. -/
def logStep (clock : Nat → String) (st : RunState) (c : LogCall) : RunState :=
  log_result clock st c.test_name c.success c.details c.error

/-- One iteration of the loop of run_all_tests (lines 182-189): run the
probe body (its log_result calls); if it raises, the runner catches the
exception and logs a failed result under test.__name__ with error=e
(an exception object, hence truthy); then time.sleep(1). -/
def runProbe (clock : Nat → String) (st : RunState) (p : ProbeBehavior) : RunState :=
  let st1 := p.logs.foldl (logStep clock) st
  let st2 :=
    match p.outcome with
    | ProbeOutcome.returns => st1
    | ProbeOutcome.raises m => log_result clock st1 p.name false none (ErrArg.excE m)
  { st2 with events := st2.events ++ [Event.slept 1] }

/-- The results accumulated by the probe loop of run_all_tests over a list
of probe behaviours. -/
def run_results (clock : Nat → String) (tests : List ProbeBehavior) : List ProbeResult :=
  (tests.foldl (runProbe clock) initState).results

/-- The success-rate computation of line 200, (passed/total)*100: a Python
float division that raises ZeroDivisionError when total = 0. -/
def success_rate (passed total : Nat) : Except RunError ℚ :=
  if total = 0 then Except.error RunError.zeroDivision
  else Except.ok (((passed : ℚ) / (total : ℚ)) * 100)

/-- Python json serialization of an optional string: None becomes null. -/
def jsonOfOptStr : Option String → JVal
  | none => JVal.jnull
  | some s => JVal.jstr s

/-- json.dump form of one result dict, with the field names of log_result. -/
def serializeResult (r : ProbeResult) : JVal :=
  JVal.jobj
    [("test", JVal.jstr r.test),
     ("success", JVal.jbool r.success),
     ("timestamp", JVal.jstr r.timestamp),
     ("details", jsonOfOptStr r.details),
     ("error", jsonOfOptStr r.error)]

/-- json.dump form of self.results. -/
def serializeResults (rs : List ProbeResult) : JVal :=
  JVal.jarr (rs.map serializeResult)

/-- run_all_tests (lines 166-208) over an arbitrary probe-behaviour list:
run every probe in order (each probe's failure is caught in runProbe),
compute passed and total, print the summary whose success-rate f-string
divides passed by total (ZeroDivisionError when total = 0, modelled through
success_rate), then write the serialized results to the report path
(writeOk = false models an IO error there), and return passed == total. -/
def run_all_tests (clock : Nat → String) (writeOk : Bool)
    (tests : List ProbeBehavior) : Except RunError (RunState × Bool) :=
  let st := tests.foldl (runProbe clock) initState
  let passed := (st.results.filter (fun r => r.success)).length
  let total := st.results.length
  match success_rate passed total with
  | Except.error e => Except.error e
  | Except.ok _ =>
    if writeOk then
      Except.ok
        ({ st with events := st.events ++ [Event.wrote reportPath (serializeResults st.results)] },
         passed == total)
    else Except.error RunError.writeFailed

/-- Outcome of one smtplib mail/rcpt command: it returns normally, raises
smtplib.SMTPRecipientsRefused, or raises some other exception with the given
str() form. -/
inductive MailAttempt
  | accepted
  | recipientsRefused (msg : String)
  | raised (msg : String)
deriving Repr, DecidableEq

/-- Network environment fixing the outcome of every network operation the
eight probes attempt.  An Option String is none when the operation succeeds
and some m when it raises an exception with str() form m; an
Except String x is an exception or the value the operation produced. -/
structure NetEnv where
  connectMx : Option String
  connectSub : Option String
  bannerConn : Except String (Option String)
  featuresConn : Except String (Option String)
  subConn : Option String
  subMail : MailAttempt
  mxExternal : Option String
  relayConn : Option String
  relayRcpt : MailAttempt
  mailhogSend : Option String
  connLimits : Option String
deriving Repr

/-- A single-quote character, for the Python repr of a string list. -/
def sglq : String := String.singleton (Char.ofNat 39)

/-- Python str() of a list of strings (repr with single quotes), as
interpolated by the f-string of test_ehlo_features. -/
def pyStrListRepr (xs : List String) : String :=
  "[" ++ String.intercalate ", " (xs.map (fun s => sglq ++ s ++ sglq)) ++ "]"

/-- Substring test, for the check 'authentication' in str(e).lower(). -/
def strContains (hay needle : String) : Bool :=
  !((hay.splitOn needle).length == 1)

/-- One iteration of the loop of test_port_connectivity (lines 41-47): try
to connect to the port and log pass, logging a failed result with the caught
exception on error. -/
def port_check (port_name : String) (port : Nat) (conn : Option String) : LogCall :=
  match conn with
  | none =>
    { test_name := port_name ++ " Port " ++ toString port ++ " Connectivity"
      success := true, details := none, error := ErrArg.noneE }
  | some e =>
    { test_name := port_name ++ " Port " ++ toString port ++ " Connectivity"
      success := false, details := none, error := ErrArg.excE e }

/-- test_port_connectivity (lines 39-47): one connection attempt and one
log_result call per port, MX first then Submission; every exception is
caught inside the loop, so the probe always returns normally. -/
def test_port_connectivity (tester : SMTPTester) (env : NetEnv) : ProbeBehavior :=
  { name := "test_port_connectivity"
    logs := [port_check "MX" tester.mx_port env.connectMx,
             port_check "Submission" tester.submission_port env.connectSub]
    outcome := ProbeOutcome.returns }

/-- test_smtp_banner (lines 49-57): connect and EHLO on the MX port; decode
response[1] (or 'No banner' when the payload is empty) and log pass with the
response as details; any exception is caught and logged as failure. -/
def test_smtp_banner (env : NetEnv) : ProbeBehavior :=
  { name := "test_smtp_banner"
    logs :=
      [match env.bannerConn with
       | Except.error e =>
         { test_name := "SMTP Banner", success := false, details := none,
           error := ErrArg.excE e }
       | Except.ok payload =>
         let banner := match payload with
           | some b => b
           | none => "No banner"
         { test_name := "SMTP Banner", success := true,
           details := some ("Response: " ++ banner), error := ErrArg.noneE }]
    outcome := ProbeOutcome.returns }

/-- test_ehlo_features (lines 59-67): like the banner probe but splitting
the decoded payload on newlines (empty payload gives the empty list). -/
def test_ehlo_features (env : NetEnv) : ProbeBehavior :=
  { name := "test_ehlo_features"
    logs :=
      [match env.featuresConn with
       | Except.error e =>
         { test_name := "EHLO Features", success := false, details := none,
           error := ErrArg.excE e }
       | Except.ok payload =>
         let features := match payload with
           | some b => b.splitOn "\n"
           | none => []
         { test_name := "EHLO Features", success := true,
           details := some ("Features: " ++ pyStrListRepr features),
           error := ErrArg.noneE }]
    outcome := ProbeOutcome.returns }

/-- test_submission_auth_required (lines 69-87): connect and EHLO on the
submission port (failure caught by the outer handler), then MAIL FROM; a
normal return is itself the failure (error is the literal string of line
78), SMTPRecipientsRefused is a pass, any other exception is a pass when
its lowercased text contains 'authentication' and a failure otherwise. -/
def test_submission_auth_required (env : NetEnv) : ProbeBehavior :=
  { name := "test_submission_auth_required"
    logs :=
      [match env.subConn with
       | some e =>
         { test_name := "Submission Auth Required", success := false,
           details := none, error := ErrArg.excE e }
       | none =>
         match env.subMail with
         | MailAttempt.accepted =>
           { test_name := "Submission Auth Required", success := false,
             details := none,
             error := ErrArg.strE "Submission port allows mail without authentication" }
         | MailAttempt.recipientsRefused _ =>
           { test_name := "Submission Auth Required", success := true,
             details := none, error := ErrArg.noneE }
         | MailAttempt.raised m =>
           if strContains m.toLower "authentication" then
             { test_name := "Submission Auth Required", success := true,
               details := none, error := ErrArg.noneE }
           else
             { test_name := "Submission Auth Required", success := false,
               details := none, error := ErrArg.excE m }]
    outcome := ProbeOutcome.returns }

/-- test_mx_external_email (lines 89-99): connect, EHLO, MAIL, RCPT to the
local domain, QUIT; pass when the whole sequence succeeds, otherwise the
caught exception is logged as failure. -/
def test_mx_external_email (env : NetEnv) : ProbeBehavior :=
  { name := "test_mx_external_email"
    logs :=
      [match env.mxExternal with
       | none =>
         { test_name := "MX External Email Acceptance", success := true,
           details := none, error := ErrArg.noneE }
       | some e =>
         { test_name := "MX External Email Acceptance", success := false,
           details := none, error := ErrArg.excE e }]
    outcome := ProbeOutcome.returns }

/-- test_relay_protection (lines 101-114): connect, EHLO, MAIL (failure
caught by the outer handler), then RCPT to a foreign domain; acceptance is
the failure (error is the literal string of line 110),
SMTPRecipientsRefused is a pass, and any other exception from the RCPT
falls through to the outer handler and is logged as failure. -/
def test_relay_protection (env : NetEnv) : ProbeBehavior :=
  { name := "test_relay_protection"
    logs :=
      [match env.relayConn with
       | some e =>
         { test_name := "Relay Protection", success := false, details := none,
           error := ErrArg.excE e }
       | none =>
         match env.relayRcpt with
         | MailAttempt.accepted =>
           { test_name := "Relay Protection", success := false, details := none,
             error := ErrArg.strE "MX server allowed unauthorized relay" }
         | MailAttempt.recipientsRefused _ =>
           { test_name := "Relay Protection", success := true, details := none,
             error := ErrArg.noneE }
         | MailAttempt.raised m =>
           { test_name := "Relay Protection", success := false, details := none,
             error := ErrArg.excE m }]
    outcome := ProbeOutcome.returns }

/-- test_send_test_email (lines 116-143): build and send a message through
the MailHog endpoint; pass with a fixed details string, or the caught
exception logged as failure. -/
def test_send_test_email (env : NetEnv) : ProbeBehavior :=
  { name := "test_send_test_email"
    logs :=
      [match env.mailhogSend with
       | none =>
         { test_name := "Send Test Email", success := true,
           details := some "Email sent to MailHog successfully",
           error := ErrArg.noneE }
       | some e =>
         { test_name := "Send Test Email", success := false, details := none,
           error := ErrArg.excE e }]
    outcome := ProbeOutcome.returns }

/-- test_connection_limits (lines 145-164): open five connections; when all
succeed, len(connections) = 5 and the probe passes with the corresponding
details string, otherwise the caught exception is logged as failure.  The
cleanup in the finally block logs nothing. -/
def test_connection_limits (env : NetEnv) : ProbeBehavior :=
  { name := "test_connection_limits"
    logs :=
      [match env.connLimits with
       | none =>
         { test_name := "Connection Limits", success := true,
           details := some "Created 5 concurrent connections",
           error := ErrArg.noneE }
       | some e =>
         { test_name := "Connection Limits", success := false, details := none,
           error := ErrArg.excE e }]
    outcome := ProbeOutcome.returns }

/-- The fixed probe list of run_all_tests (lines 171-180), in source
order. -/
def tests_list (tester : SMTPTester) (env : NetEnv) : List ProbeBehavior :=
  [test_port_connectivity tester env,
   test_smtp_banner env,
   test_ehlo_features env,
   test_submission_auth_required env,
   test_mx_external_email env,
   test_relay_protection env,
   test_send_test_email env,
   test_connection_limits env]

/-- The __main__ block (lines 210-219): build SMTPTester() with the
defaults, run all tests, and exit(0) on overall success, exit(1) otherwise.
An exception escaping run_all_tests escapes the process (Except.error). -/
def script_main (clock : Nat → String) (writeOk : Bool) (env : NetEnv) :
    Except RunError Nat :=
  match run_all_tests clock writeOk (tests_list testerDefault env) with
  | Except.error e => Except.error e
  | Except.ok p => Except.ok (if p.2 then 0 else 1)

/-- A fixed clock for concrete evaluations. -/
def clk0 : Nat → String := fun n => "t" ++ toString n

/-- An environment in which every network operation succeeds the way the
probes expect (recipients refused where refusal is the pass condition). -/
def envAllOk : NetEnv :=
  { connectMx := none
    connectSub := none
    bannerConn := Except.ok (some "220 UltraZend ESMTP")
    featuresConn := Except.ok (some "250-AUTH LOGIN PLAIN")
    subConn := none
    subMail := MailAttempt.recipientsRefused "refused"
    mxExternal := none
    relayConn := none
    relayRcpt := MailAttempt.recipientsRefused "refused"
    mailhogSend := none
    connLimits := none }

/-- A probe that logs exactly one passing result and returns. -/
def probeOne : ProbeBehavior :=
  { name := "probe_one"
    logs := [{ test_name := "Probe One", success := true, details := none,
               error := ErrArg.noneE }]
    outcome := ProbeOutcome.returns }

/-- A probe that logs nothing and raises an exception whose str() form is
the empty string (as Exception() does in Python). -/
def probeRaisesEmpty : ProbeBehavior :=
  { name := "probe_empty_exc", logs := [], outcome := ProbeOutcome.raises "" }

example : run_results (fun _ => "t") [] = [] := rfl

example : (run_results clk0 (tests_list testerDefault envAllOk)).length = 9 := rfl

example : script_main clk0 true envAllOk = Except.ok 0 := rfl

/-- The timestamp-free part of a result: test name, success flag, details,
error.  Two runs of the same probes differ at most in timestamps, so claims
about names, outcomes and errors are stated through this projection. -/
def skel (r : ProbeResult) : String × Bool × Option String × Option String :=
  (r.test, r.success, r.details, r.error)

/-- The skeleton of the result a LogCall produces. -/
def logSkel (c : LogCall) : String × Bool × Option String × Option String :=
  (c.test_name, c.success, c.details, errField c.error)

/-- The skeletons of all results one probe invocation contributes: its own
log_result calls, then the runner-logged failure when it raises. -/
def probeSkel (p : ProbeBehavior) :
    List (String × Bool × Option String × Option String) :=
  p.logs.map logSkel ++
    (match p.outcome with
     | ProbeOutcome.returns => []
     | ProbeOutcome.raises m => [(p.name, false, none, some m)])

lemma log_result_results (clock : Nat → String) (st : RunState)
    (tn : String) (s : Bool) (d : Option String) (e : ErrArg) :
    (log_result clock st tn s d e).results
      = st.results ++
        [{ test := tn, success := s, timestamp := clock st.results.length,
           details := d, error := errField e }] := rfl

lemma foldLogs_results_map (clock : Nat → String) (logs : List LogCall) :
    ∀ st : RunState,
      ((logs.foldl (logStep clock) st).results).map skel
        = st.results.map skel ++ logs.map logSkel := by
  induction logs with
  | nil => intro st; simp
  | cons c cs ih =>
    intro st
    simp only [List.foldl_cons, ih, List.map_cons]
    simp [logStep, log_result_results, skel, logSkel]

lemma runProbe_results_map (clock : Nat → String) (st : RunState)
    (p : ProbeBehavior) :
    ((runProbe clock st p).results).map skel
      = st.results.map skel ++ probeSkel p := by
  unfold runProbe probeSkel
  cases p.outcome with
  | returns => simp [foldLogs_results_map]
  | raises m =>
    simp [log_result_results, foldLogs_results_map, skel, errField,
      ErrArg.truthy, ErrArg.pyStr]

lemma foldProbes_results_map (clock : Nat → String) (tests : List ProbeBehavior) :
    ∀ st : RunState,
      ((tests.foldl (runProbe clock) st).results).map skel
        = st.results.map skel ++ (tests.map probeSkel).flatten := by
  induction tests with
  | nil => intro st; simp
  | cons p ps ih =>
    intro st
    simp only [List.foldl_cons, ih, List.map_cons, List.flatten]
    rw [runProbe_results_map, List.append_assoc]

lemma run_results_map (clock : Nat → String) (tests : List ProbeBehavior) :
    (run_results clock tests).map skel = (tests.map probeSkel).flatten := by
  unfold run_results
  rw [foldProbes_results_map]
  simp [initState]

/-- The sleep durations recorded in an event trace, in order. -/
def sleepDurations (es : List Event) : List Nat :=
  es.filterMap (fun e => match e with | Event.slept n => some n | _ => none)

/-- Whether an event is a file write. -/
def isWrote : Event → Bool
  | Event.wrote _ _ => true
  | _ => false

lemma sleepDurations_append (a b : List Event) :
    sleepDurations (a ++ b) = sleepDurations a ++ sleepDurations b := by
  simp [sleepDurations, List.filterMap_append]

lemma filter_isWrote_append (a b : List Event) :
    (a ++ b).filter isWrote = a.filter isWrote ++ b.filter isWrote := by
  simp [List.filter_append]

lemma foldLogs_events (clock : Nat → String) (logs : List LogCall) :
    ∀ st : RunState,
      sleepDurations ((logs.foldl (logStep clock) st).events)
          = sleepDurations st.events
      ∧ ((logs.foldl (logStep clock) st).events).filter isWrote
          = st.events.filter isWrote := by
  induction logs with
  | nil => intro st; exact ⟨rfl, rfl⟩
  | cons c cs ih =>
    intro st
    simp only [List.foldl_cons]
    refine ⟨?_, ?_⟩
    · rw [(ih _).1]
      simp [logStep, log_result, sleepDurations_append, sleepDurations]
    · rw [(ih _).2]
      simp [logStep, log_result, filter_isWrote_append, isWrote, List.filter]

lemma runProbe_events (clock : Nat → String) (st : RunState) (p : ProbeBehavior) :
    sleepDurations ((runProbe clock st p).events)
        = sleepDurations st.events ++ [1]
    ∧ ((runProbe clock st p).events).filter isWrote
        = st.events.filter isWrote := by
  unfold runProbe
  cases p.outcome with
  | returns =>
    refine ⟨?_, ?_⟩
    · simp only [sleepDurations_append, (foldLogs_events clock p.logs st).1]
      simp [sleepDurations]
    · simp only [filter_isWrote_append, (foldLogs_events clock p.logs st).2]
      simp [isWrote, List.filter]
  | raises m =>
    refine ⟨?_, ?_⟩
    · simp only [log_result, sleepDurations_append,
        (foldLogs_events clock p.logs st).1]
      simp [sleepDurations]
    · simp only [log_result, filter_isWrote_append,
        (foldLogs_events clock p.logs st).2]
      simp [isWrote, List.filter]

lemma foldProbes_events (clock : Nat → String) (tests : List ProbeBehavior) :
    ∀ st : RunState,
      sleepDurations ((tests.foldl (runProbe clock) st).events)
          = sleepDurations st.events ++ List.replicate tests.length 1
      ∧ ((tests.foldl (runProbe clock) st).events).filter isWrote
          = st.events.filter isWrote := by
  induction tests with
  | nil => intro st; simp
  | cons p ps ih =>
    intro st
    simp only [List.foldl_cons, List.length_cons]
    refine ⟨?_, ?_⟩
    · rw [(ih _).1, (runProbe_events clock st p).1]
      simp [List.replicate_succ, List.append_assoc]
    · rw [(ih _).2, (runProbe_events clock st p).2]

lemma length_filter_success_add_not (rs : List ProbeResult) :
    (rs.filter (fun r => r.success)).length
      + (rs.filter (fun r => !r.success)).length = rs.length := by
  induction rs with
  | nil => rfl
  | cons r l ih =>
    cases h : r.success <;> simp [List.filter_cons, h] <;> omega

lemma length_filter_le_self (rs : List ProbeResult) :
    (rs.filter (fun r => r.success)).length ≤ rs.length :=
  List.length_filter_le _ rs

lemma filter_length_eq_iff_all (rs : List ProbeResult) :
    ((rs.filter (fun r => r.success)).length = rs.length)
      ↔ rs.all (fun r => r.success) = true := by
  induction rs with
  | nil => simp
  | cons r l ih =>
    cases h : r.success
    · simp only [List.filter_cons, h, if_neg Bool.false_ne_true, List.all_cons,
        Bool.false_and, List.length_cons]
      have hle := length_filter_le_self l
      constructor
      · intro hc; omega
      · intro hc; cases hc
    · simp [List.filter_cons, h, ih]

lemma flatten_length_of_singletons {α : Type} (ls : List (List α))
    (h : ∀ l ∈ ls, l.length = 1) : ls.flatten.length = ls.length := by
  induction ls with
  | nil => rfl
  | cons a as ih =>
    simp only [List.flatten_cons, List.length_append, List.length_cons]
    rw [h a (by simp), ih (fun l hl => h l (by simp [hl]))]
    omega

/-- Characterization of a normally completing run_all_tests: the write
succeeded, the result log is non-empty (otherwise the success-rate division
raised), the returned state carries the loop's results, the returned boolean
is passed == total, and the event trace is the loop's trace followed by the
single report write. -/
lemma run_all_tests_ok (clock : Nat → String) (w : Bool)
    (tests : List ProbeBehavior) (st : RunState) (b : Bool)
    (h : run_all_tests clock w tests = Except.ok (st, b)) :
    w = true
    ∧ run_results clock tests ≠ []
    ∧ st.results = run_results clock tests
    ∧ b = (((run_results clock tests).filter (fun r => r.success)).length
            == (run_results clock tests).length)
    ∧ st.events = (tests.foldl (runProbe clock) initState).events
        ++ [Event.wrote reportPath (serializeResults (run_results clock tests))] := by
  unfold run_all_tests success_rate at h
  by_cases ht : (tests.foldl (runProbe clock) initState).results.length = 0
  · simp [ht] at h
  · cases w
    · simp [ht] at h
    · simp only [ht, if_false, if_true, reduceIte] at h
      rw [Except.ok.injEq, Prod.mk.injEq] at h
      obtain ⟨hst, hb⟩ := h
      refine ⟨rfl, ?_, ?_, ?_, ?_⟩
      · unfold run_results
        intro hnil
        exact ht (by rw [hnil]; rfl)
      · rw [← hst]
        rfl
      · rw [← hb]; rfl
      · rw [← hst]; rfl

lemma run_all_tests_bool_iff (clock : Nat → String) (w : Bool)
    (tests : List ProbeBehavior) (st : RunState) (b : Bool)
    (h : run_all_tests clock w tests = Except.ok (st, b)) :
    b = true ↔ st.results.all (fun r => r.success) = true := by
  obtain ⟨-, -, hres, hb, -⟩ := run_all_tests_ok clock w tests st b h
  rw [hres, hb]
  rw [beq_iff_eq]
  exact filter_length_eq_iff_all (run_results clock tests)

example :
    run_results (fun _ => "t")
      [{ name := "p", logs := [], outcome := ProbeOutcome.raises "boom" }]
      = [{ test := "p", success := false, timestamp := "t", details := none,
           error := some "boom" }] := rfl

/-- Names of the fields of a serialized JSON object. -/
def jsonFieldNames : JVal → List String
  | JVal.jobj fs => fs.map (fun f => f.1)
  | _ => []

/-- The state returned by a completed run over the single probe probeOne,
for concrete instantiations. -/
def stOne : RunState :=
  match run_all_tests clk0 true [probeOne] with
  | Except.ok p => p.1
  | Except.error _ => initState

/-- C1 (amended): when a probe raises an error not handled inside its body,
run_all_tests catches it, appends a failed ProbeResult carrying the probe's
name and an error field equal to the string form of the raised error
(non-empty exactly when that string form is), and every remaining probe
still runs in order: the run's results are the probes' contributions in
sequence, with the caught failure in place. -/
theorem c1_runner_catches_and_continues (clock : Nat → String)
    (pre post : List ProbeBehavior) (nm m : String) (logs : List LogCall) :
    (run_results clock
        (pre ++ { name := nm, logs := logs, outcome := ProbeOutcome.raises m } :: post)).map skel
      = (pre.map probeSkel).flatten
        ++ (logs.map logSkel ++ [(nm, false, none, some m)])
        ++ (post.map probeSkel).flatten := by
  rw [run_results_map]
  simp [List.map_append, List.flatten_append, probeSkel, List.append_assoc]

/-- C1 counterexample: a probe that raises an exception whose string form is
empty (as Python Exception() does) is recorded with error = some "", an
empty error description, refuting the claimed non-emptiness; the next probe
still runs. -/
theorem c1_empty_error_description :
    (run_results clk0 [probeRaisesEmpty, probeOne]).map
        (fun r => (r.test, r.success, r.error))
      = [("probe_empty_exc", false, some ""), ("Probe One", true, none)] := rfl

/-- C2 (amended): the result log of a run is exactly the in-order
concatenation of each probe's contributions (one result per log_result call
of its body, plus one runner-logged failure when it raises); in particular,
when every probe contributes exactly one result, a list of N probes yields
exactly N results. -/
theorem c2_results_in_invocation_order (clock : Nat → String)
    (tests : List ProbeBehavior)
    (h : ∀ p ∈ tests, (probeSkel p).length = 1) :
    (run_results clock tests).map skel = (tests.map probeSkel).flatten
    ∧ (run_results clock tests).length = tests.length := by
  refine ⟨run_results_map clock tests, ?_⟩
  have hlen : (run_results clock tests).length
      = ((run_results clock tests).map skel).length := by simp
  rw [hlen, run_results_map,
    flatten_length_of_singletons (tests.map probeSkel)
      (by intro l hl
          obtain ⟨p, hp, rfl⟩ := List.mem_map.mp hl
          exact h p hp)]
  simp

/-- C2 witness: a single probe contributing one result yields a log of
length one. -/
theorem c2_results_in_invocation_order_witness :
    (run_results clk0 [probeOne]).length = 1 :=
  (c2_results_in_invocation_order clk0 [probeOne] (by decide)).2

/-- C2 counterexample: the script's own test_port_connectivity logs one
result per port, so the probe list of length 1 containing it yields a
result log of length 2, refuting exactly one ProbeResult per probe. -/
theorem c2_port_probe_two_results :
    [test_port_connectivity testerDefault envAllOk].length = 1
    ∧ (run_results clk0 [test_port_connectivity testerDefault envAllOk]).length = 2 :=
  ⟨rfl, rfl⟩

/-- C3: for a completed run, the boolean returned by run_all_tests is true
iff every recorded ProbeResult succeeded, and the process of the __main__
block exits with code 0 iff all probes of the script's run passed (exit(1)
otherwise). -/
theorem c3_overall_success_and_exit_code (clock : Nat → String) (w : Bool)
    (tests : List ProbeBehavior) (env : NetEnv) :
    (∀ st b, run_all_tests clock w tests = Except.ok (st, b) →
        (b = true ↔ st.results.all (fun r => r.success) = true))
    ∧ (∀ code, script_main clock w env = Except.ok code →
        (code = 0 ↔
          (run_results clock (tests_list testerDefault env)).all
            (fun r => r.success) = true)) := by
  constructor
  · intro st b h
    exact run_all_tests_bool_iff clock w tests st b h
  · intro code h
    unfold script_main at h
    cases hr : run_all_tests clock w (tests_list testerDefault env) with
    | error e => rw [hr] at h; cases h
    | ok p =>
      rw [hr] at h
      obtain ⟨st2, b2⟩ := p
      have hiff := run_all_tests_bool_iff clock w (tests_list testerDefault env) st2 b2 hr
      have hres := (run_all_tests_ok clock w (tests_list testerDefault env) st2 b2 hr).2.2.1
      rw [Except.ok.injEq] at h
      rw [← h]
      cases b2 with
      | true =>
        rw [← hres]
        exact ⟨fun _ => hiff.mp rfl, fun _ => rfl⟩
      | false =>
        rw [← hres]
        constructor
        · intro hc
          simp at hc
        · intro hall
          exact absurd (hiff.mpr hall) (by decide)
  
/-- C3 witness: in an environment where every probe passes, the script
exits with code 0 and indeed every result succeeded. -/
theorem c3_overall_success_and_exit_code_witness :
    (0 : Nat) = 0 ↔
      (run_results clk0 (tests_list testerDefault envAllOk)).all
        (fun r => r.success) = true :=
  (c3_overall_success_and_exit_code clk0 true [] envAllOk).2 0 rfl

/-- C4: the claim is right and the code wrong: for an empty result log
(total = 0) the summary of run_all_tests evaluates (passed/total)*100,
which raises ZeroDivisionError, so the run aborts instead of reporting a
well-defined success rate. -/
theorem c4_zero_total_divides_by_zero :
    run_all_tests clk0 true [] = Except.error RunError.zeroDivision
    ∧ success_rate 0 0 = Except.error RunError.zeroDivision :=
  ⟨rfl, rfl⟩

/-- C5: in every run, the number of succeeded results plus the number of
failed results equals the length of the result log, and the failed count
printed as total - passed equals the number of results with
succeeded = false. -/
theorem c5_passed_plus_failed_eq_total (clock : Nat → String)
    (tests : List ProbeBehavior) :
    ((run_results clock tests).filter (fun r => r.success)).length
      + ((run_results clock tests).filter (fun r => !r.success)).length
      = (run_results clock tests).length
    ∧ (run_results clock tests).length
        - ((run_results clock tests).filter (fun r => r.success)).length
      = ((run_results clock tests).filter (fun r => !r.success)).length := by
  have h := length_filter_success_add_not (run_results clock tests)
  exact ⟨h, by omega⟩

/-- C6: a completed run writes the report exactly once (a single write
event, to the fixed path, holding the serialization of the full ordered
result list), the write is the last event, after every probe's events, and
each serialized result is an object with field names test, success,
timestamp, details, error. -/
theorem c6_report_written_once_after_probes (clock : Nat → String) (w : Bool)
    (tests : List ProbeBehavior) (st : RunState) (b : Bool)
    (h : run_all_tests clock w tests = Except.ok (st, b)) :
    st.events.filter isWrote
        = [Event.wrote reportPath (serializeResults st.results)]
    ∧ st.events = (tests.foldl (runProbe clock) initState).events
        ++ [Event.wrote reportPath (serializeResults st.results)]
    ∧ ∀ r ∈ st.results,
        jsonFieldNames (serializeResult r)
          = ["test", "success", "timestamp", "details", "error"] := by
  obtain ⟨-, -, hres, -, hev⟩ := run_all_tests_ok clock w tests st b h
  rw [← hres] at hev
  refine ⟨?_, hev, ?_⟩
  · rw [hev, filter_isWrote_append]
    rw [(foldProbes_events clock tests initState).2]
    simp [initState, isWrote, List.filter]
  · intro r _
    rfl

/-- C6 witness: the completed single-probe run has exactly one write event,
holding the serialized results. -/
theorem c6_report_written_once_after_probes_witness :
    stOne.events.filter isWrote
      = [Event.wrote reportPath (serializeResults stOne.results)] :=
  (c6_report_written_once_after_probes clk0 true [probeOne] stOne true rfl).1

/-- C7: when the result log is non-empty (as in every run of the script's
fixed probe list), a failed report write is fatal: run_all_tests propagates
Except.error writeFailed to the caller instead of recording any ProbeResult
for it, and it is the only fatal error of such a run - every error outcome
is the bookkeeping error writeFailed with the write disabled, never a
probe-level outcome. -/
theorem c7_report_write_failure_fatal (clock : Nat → String)
    (tests : List ProbeBehavior) (h : run_results clock tests ≠ []) :
    run_all_tests clock false tests = Except.error RunError.writeFailed
    ∧ (∀ w e, run_all_tests clock w tests = Except.error e →
        e = RunError.writeFailed ∧ w = false) := by
  have ht : ¬(tests.foldl (runProbe clock) initState).results.length = 0 := by
    intro hz
    exact h (List.length_eq_zero.mp hz)
  constructor
  · unfold run_all_tests success_rate
    simp [ht]
  · intro w e he
    cases w
    · have h1 : run_all_tests clock false tests = Except.error RunError.writeFailed := by
        unfold run_all_tests success_rate
        simp [ht]
      rw [h1, Except.error.injEq] at he
      exact ⟨he.symm, rfl⟩
    · unfold run_all_tests success_rate at he
      simp [ht] at he

/-- C7 witness: with a non-empty result log, disabling the write makes the
run fail with the distinct bookkeeping error. -/
theorem c7_report_write_failure_fatal_witness :
    run_all_tests clk0 false [probeOne] = Except.error RunError.writeFailed :=
  (c7_report_write_failure_fatal clk0 [probeOne] (by decide)).1

/-- C8 (amended): the configuration options the script recognizes are
exactly the target host and the two port numbers (the keyword parameters of
SMTPTester.__init__); the inter-probe delay is not configurable - the
runner sleeps the literal constant 1 after every probe - and the report
path is the literal constant /tmp/smtp-test-results.json. -/
theorem c8_options_and_fixed_delay (clock : Nat → String)
    (tests : List ProbeBehavior) :
    recognizedOptions = ["smtp_host", "mx_port", "submission_port"]
    ∧ sleepDurations ((tests.foldl (runProbe clock) initState).events)
        = List.replicate tests.length 1
    ∧ reportPath = "/tmp/smtp-test-results.json" := by
  refine ⟨rfl, ?_, rfl⟩
  have h := (foldProbes_events clock tests initState).1
  rw [h]
  simp [initState, sleepDurations]

/-- C8 counterexample: the configuration surface of the script is exactly
the three __init__ keyword parameters; there is no fourth or fifth option,
so neither the inter-probe delay nor the report file path is a recognized
configuration option, refuting the claim that they are. -/
theorem c8_only_three_options :
    recognizedOptions = ["smtp_host", "mx_port", "submission_port"]
    ∧ recognizedOptions.length = 3 :=
  ⟨rfl, rfl⟩

/-- C9: two executions of the runner over the same probe list, differing
only in their clocks (timestamps), produce result logs of equal length with
identical succeeded values at every position. -/
theorem c9_success_values_clock_independent (tests : List ProbeBehavior)
    (clock1 clock2 : Nat → String) :
    (run_results clock1 tests).length = (run_results clock2 tests).length
    ∧ (run_results clock1 tests).map (fun r => r.success)
      = (run_results clock2 tests).map (fun r => r.success) := by
  have h1 := run_results_map clock1 tests
  have h2 := run_results_map clock2 tests
  constructor
  · have hl := congrArg List.length (h1.trans h2.symm)
    simpa using hl
  · have hs : ∀ c : Nat → String,
        (run_results c tests).map (fun r => r.success)
          = ((run_results c tests).map skel).map (fun t => t.2.1) := by
      intro c
      rw [List.map_map]
      rfl
    rw [hs clock1, hs clock2, h1, h2]

/-- C10: in every recorded ProbeResult, the error field is
str(error) when the error argument is truthy and None otherwise: an
exception records its string form even when empty (some ""), a non-empty
string is recorded as itself, and a falsy error value (None or the empty
string) is recorded as None. -/
theorem c10_error_field_truthiness (clock : Nat → String) (st : RunState)
    (tn : String) (s : Bool) (d : Option String) (ev : ErrArg) :
    (log_result clock st tn s d ev).results
      = st.results ++
        [{ test := tn, success := s, timestamp := clock st.results.length,
           details := d,
           error := match ev with
             | ErrArg.noneE => none
             | ErrArg.strE str => if str = "" then none else some str
             | ErrArg.excE m => some m }] := by
  cases ev with
  | noneE => rfl
  | strE s2 =>
    by_cases h : s2 = ""
    · simp [log_result, errField, ErrArg.truthy, ErrArg.pyStr, h]
    · simp [log_result, errField, ErrArg.truthy, ErrArg.pyStr, h]
  | excE m => rfl
